import Mathlib

/-!
Shallow embedding of the personality-profile state machine of src/app.py:
the session-scoped profile store ( st.session_state.personality_data ), the
three assessment forms (Big Five, MBTI, Enneagram), and the two gated
projection views (chat_page, analytics_page).  UI widget calls are modelled
as render items accumulated in source order; the option lists of radio and
selectbox widgets are modelled as the lists of values a widget can return.
Python dict values are modelled as structures; Python ints as Int.
-/

/-- A single apostrophe character, written via its code point. -/
def squote : String := (Char.ofNat 39).toString

/-- Result record stored under key big_five (app.py lines 124-130). -/
structure BigFiveResult where
  openness : Int
  conscientiousness : Int
  extraversion : Int
  agreeableness : Int
  neuroticism : Int
deriving DecidableEq

/-- Result record stored under key mbti (app.py lines 162-168). -/
structure MBTIResult where
  type : String
  ei : String
  sn : String
  tf : String
  jp : String
deriving DecidableEq

/-- Result record stored under key enneagram (app.py lines 208-212). -/
structure EnneagramResult where
  primary_type : Int
  wing : Int
  instinct : String
deriving DecidableEq

/-- The session profile store st.session_state.personality_data: a dict
holding at most one record per assessment key (app.py line 19). -/
structure PersonalityData where
  big_five : Option BigFiveResult
  mbti : Option MBTIResult
  enneagram : Option EnneagramResult
deriving DecidableEq

/-- The store at session start: an empty dict (app.py line 19). -/
def initialPersonalityData : PersonalityData := ⟨none, none, none⟩

/-- Python truthiness test used by the gated pages: a dict is falsy iff it
is empty ( not st.session_state.personality_data ). -/
def PersonalityData.isEmpty (p : PersonalityData) : Bool :=
  p.big_five.isNone && p.mbti.isNone && p.enneagram.isNone

/-- The three assessment kinds (the possible keys of the store). -/
inductive AssessmentKind
  | bigFive
  | mbti
  | enneagram
deriving DecidableEq

/-- A stored value of any of the three kinds. -/
inductive AssessmentResult
  | bigFive (r : BigFiveResult)
  | mbti (r : MBTIResult)
  | enneagram (r : EnneagramResult)
deriving DecidableEq

/-- The kind (dict key) a result is stored under. -/
def AssessmentResult.kind : AssessmentResult → AssessmentKind
  | .bigFive _ => .bigFive
  | .mbti _ => .mbti
  | .enneagram _ => .enneagram

/-- Dict assignment personality_data[key] = record: replaces the entry for
the result's key, leaves the other keys alone. -/
def setResult (p : PersonalityData) (r : AssessmentResult) : PersonalityData :=
  match r with
  | .bigFive b => { p with big_five := some b }
  | .mbti m => { p with mbti := some m }
  | .enneagram e => { p with enneagram := some e }

/-- Dict lookup personality_data[key]: the stored record of that kind, if
present. -/
def getResult (p : PersonalityData) (k : AssessmentKind) : Option AssessmentResult :=
  match k with
  | .bigFive => p.big_five.map AssessmentResult.bigFive
  | .mbti => p.mbti.map AssessmentResult.mbti
  | .enneagram => p.enneagram.map AssessmentResult.enneagram

/-- big_five_assessment save branch (app.py lines 122-130): each slider
yields an int in [1,100]; on Save the five values are stored as a record
under big_five. -/
def big_five_assessment (p : PersonalityData)
    (openness conscientiousness extraversion agreeableness neuroticism : Int) :
    PersonalityData :=
  { p with
    big_five := some { openness := openness,
                       conscientiousness := conscientiousness,
                       extraversion := extraversion,
                       agreeableness := agreeableness,
                       neuroticism := neuroticism } }

/-- Option list of the radio widget Energy orientation (app.py line 151). -/
def eiOptions : List String := ["Extraversion (E)", "Introversion (I)"]

/-- Option list of the radio widget Information gathering (app.py line 152). -/
def snOptions : List String := ["Sensing (S)", "Intuition (N)"]

/-- Option list of the radio widget Decision making (app.py line 153). -/
def tfOptions : List String := ["Thinking (T)", "Feeling (F)"]

/-- Option list of the radio widget Lifestyle (app.py line 154). -/
def jpOptions : List String := ["Judging (J)", "Perceiving (P)"]

/-- Python s[0] on a non-empty string: the string made of its first
character (app.py line 156 uses ei[0], sn[0], tf[0], jp[0]). -/
def firstChar (s : String) : String := String.mk (s.data.take 1)

/-- mbti_type derivation (app.py line 156): concatenation of the first
character of each chosen label, in order ei, sn, tf, jp. -/
def mbtiType (ei sn tf jp : String) : String :=
  firstChar ei ++ firstChar sn ++ firstChar tf ++ firstChar jp

/-- The record saved by mbti_assessment (app.py lines 162-168). -/
def mbtiResultOf (ei sn tf jp : String) : MBTIResult :=
  { type := mbtiType ei sn tf jp
    ei := firstChar ei
    sn := firstChar sn
    tf := firstChar tf
    jp := firstChar jp }

/-- mbti_assessment save branch (app.py lines 160-168): stores the derived
type and the four first characters under mbti. -/
def mbti_assessment (p : PersonalityData) (ei sn tf jp : String) : PersonalityData :=
  { p with mbti := some (mbtiResultOf ei sn tf jp) }

/-- Option list of the Primary Type selectbox: list(range(1, 10))
(app.py line 194). -/
def primaryTypeOptions : List Int := [1, 2, 3, 4, 5, 6, 7, 8, 9]

/-- wing_options (app.py lines 196-197): [primary_type - 1, primary_type + 1]
filtered to 1 <= w <= 9. -/
def wing_options (primary_type : Int) : List Int :=
  [primary_type - 1, primary_type + 1].filter (fun w => decide (1 ≤ w ∧ w ≤ 9))

/-- Option list of the Dominant Instinct selectbox (app.py lines 200-204). -/
def instinctOptions : List String :=
  ["Self-Preservation (sp)", "Social (so)", "One-to-One/Sexual (sx)"]

/-- enneagram_assessment save branch (app.py lines 206-212): stores the
selected primary type, wing and instinct under enneagram. -/
def enneagram_assessment (p : PersonalityData)
    (primary_type wing : Int) (instinct : String) : PersonalityData :=
  { p with
    enneagram := some { primary_type := primary_type, wing := wing,
                        instinct := instinct } }

/-- One rendered UI element, mirroring the streamlit calls the two
projection pages make, in execution order. -/
inductive RenderItem
  | header (s : String)
  | subheader (s : String)
  | markdown (s : String)
  | warning (s : String)
  | write (s : String)
  | info (s : String)
  | textInput (label : String)
  | barChart (data : List (String × Int))
  | progress (n : Int)
deriving DecidableEq

/-- True exactly on warning items. -/
def isWarning : RenderItem → Bool
  | .warning _ => true
  | _ => false

/-- True exactly on info items (the chat response is rendered with st.info,
app.py line 247). -/
def isInfo : RenderItem → Bool
  | .info _ => true
  | _ => false

/-- The payload of a progress item, if any. -/
def progressValue : RenderItem → Option Int
  | .progress n => some n
  | _ => none

/-- The markdown text of chat_page (app.py lines 230-233). -/
def chatIntroText : String :=
  "Ask a question to your past self. The application will use your stored personality data\nto generate responses that reflect how you might have responded in the past."

/-- The fixed prefix of the placeholder chat response (app.py lines 243-246). -/
def chatResponsePre : String :=
  "Based on your personality data, your past self might say: I would need to think about " ++ squote

/-- The fixed suffix of the placeholder chat response (app.py lines 243-246). -/
def chatResponsePost : String :=
  squote ++ " carefully before responding."

/-- The placeholder response string (app.py lines 243-246): a fixed template
embedding the query text verbatim. -/
def chatResponse (user_query : String) : String :=
  chatResponsePre ++ user_query ++ chatResponsePost

/-- The items rendered by the ask branch of chat_page (app.py lines
238-247): only when the query is non-empty (Python truthiness of a string)
and the Ask button fired. -/
def chatAskItems (user_query : String) (askPressed : Bool) : List RenderItem :=
  if user_query ≠ "" ∧ askPressed = true then
    [.write "Your past self:", .info (chatResponse user_query)]
  else []

/-- chat_page (app.py lines 219-247), as a state transformer: returns the
(unchanged) session store and the list of rendered items.  The header is
rendered first; with an empty store the function warns and returns. -/
def chat_page (p : PersonalityData) (user_query : String) (askPressed : Bool) :
    PersonalityData × List RenderItem :=
  if p.isEmpty then
    (p, [.header "Chat with Your Past Self",
         .warning "Please complete at least one personality assessment before chatting."])
  else
    (p, [.header "Chat with Your Past Self",
         .markdown chatIntroText,
         .textInput "Your question:"] ++ chatAskItems user_query askPressed)

/-- The markdown text of analytics_page (app.py lines 261-264). -/
def analyticsIntroText : String :=
  "This page provides insights and visualizations based on your personality data.\nAs you complete more assessments over time, you" ++ squote ++ "ll be able to track changes in your personality."

/-- The Big Five block of analytics_page (app.py lines 267-278): a bar
chart of the five stored values, in dict insertion order. -/
def bigFiveSection (b : BigFiveResult) : List RenderItem :=
  [.subheader "Big Five (OCEAN) Profile",
   .barChart [("Openness", b.openness),
              ("Conscientiousness", b.conscientiousness),
              ("Extraversion", b.extraversion),
              ("Agreeableness", b.agreeableness),
              ("Neuroticism", b.neuroticism)]]

/-- The MBTI block of analytics_page (app.py lines 281-304): the type
string, then per axis a progress bar (100 if the stored letter equals the
first-listed pole, else 0) and the letter, column blocks in source order. -/
def mbtiSection (m : MBTIResult) : List RenderItem :=
  [.subheader "MBTI Type",
   .write ("Your type: " ++ m.type),
   .write "Energy orientation:",
   .progress (if m.ei = "E" then 100 else 0),
   .write (if m.ei = "E" then "E" else "I"),
   .write "Information gathering:",
   .progress (if m.sn = "S" then 100 else 0),
   .write (if m.sn = "S" then "S" else "N"),
   .write "Decision making:",
   .progress (if m.tf = "T" then 100 else 0),
   .write (if m.tf = "T" then "T" else "F"),
   .write "Lifestyle:",
   .progress (if m.jp = "J" then 100 else 0),
   .write (if m.jp = "J" then "J" else "P")]

/-- The Enneagram block of analytics_page (app.py lines 307-313). -/
def enneagramSection (e : EnneagramResult) : List RenderItem :=
  [.subheader "Enneagram Profile",
   .write ("Type " ++ toString e.primary_type ++ "w" ++ toString e.wing
           ++ " (" ++ e.instinct ++ ")")]

/-- analytics_page (app.py lines 250-315), as a state transformer: header
first; with an empty store it warns and returns; otherwise it renders, for
each kind present in the store, that kind's block. -/
def analytics_page (p : PersonalityData) : PersonalityData × List RenderItem :=
  if p.isEmpty then
    (p, [.header "Personality Analytics",
         .warning "Please complete at least one personality assessment to view analytics."])
  else
    (p, [.header "Personality Analytics",
         .markdown analyticsIntroText] ++
        (match p.big_five with
         | some b => bigFiveSection b
         | none => []) ++
        (match p.mbti with
         | some m => mbtiSection m
         | none => []) ++
        (match p.enneagram with
         | some e => enneagramSection e
         | none => []))

/-- Spec-side definition (section 4.4): the Big Five projection is the
five-value categorical bar series with the stored integer values, in the
fixed order Openness, Conscientiousness, Extraversion, Agreeableness,
Neuroticism. -/
def specBigFiveSeries (b : BigFiveResult) : List (String × Int) :=
  [("Openness", b.openness),
   ("Conscientiousness", b.conscientiousness),
   ("Extraversion", b.extraversion),
   ("Agreeableness", b.agreeableness),
   ("Neuroticism", b.neuroticism)]

/-- Spec-side definition (section 4.4): the MBTI projection includes four
binary indicators, 100 if the trait matches the first-listed pole of each
axis (E, S, T, J) else 0, in axis order ei, sn, tf, jp. -/
def specMBTIIndicators (m : MBTIResult) : List Int :=
  [if m.ei = "E" then 100 else 0,
   if m.sn = "S" then 100 else 0,
   if m.tf = "T" then 100 else 0,
   if m.jp = "J" then 100 else 0]

/-- Spec-side definition (section 4.4): the Enneagram projection is the
formatted string Type NwM (instinct label). -/
def specEnneagramText (e : EnneagramResult) : String :=
  "Type " ++ toString e.primary_type ++ "w" ++ toString e.wing
    ++ " (" ++ e.instinct ++ ")"

/-- Helper: the ask branch of chat_page never renders a warning. -/
lemma chatAskItems_filter_isWarning (q : String) (a : Bool) :
    (chatAskItems q a).filter isWarning = [] := by
  unfold chatAskItems
  split <;> rfl

/-- Helper: with a non-empty query and a fired trigger, the ask branch
renders the templated response. -/
lemma chatAskItems_info_mem (q : String) (a : Bool) (hq : q ≠ "") (ha : a = true) :
    RenderItem.info (chatResponse q) ∈ chatAskItems q a := by
  unfold chatAskItems
  rw [if_pos ⟨hq, ha⟩]
  simp

/-- Helper: unless the query is non-empty and the trigger fired, the ask
branch renders nothing. -/
lemma chatAskItems_eq_nil (q : String) (a : Bool) (hc : ¬(q ≠ "" ∧ a = true)) :
    chatAskItems q a = [] := by
  unfold chatAskItems
  exact if_neg hc

/-- Claim C1, evaluation at the claimed example: on the choices
Introversion (I), Intuition (N), Feeling (F), Judging (J) the code derives
the type IIFJ, not INFJ, because the first character of the label
Intuition (N) is I; the stored sn field is likewise I. -/
theorem mbti_intuition_first_char_eval :
    mbtiType "Introversion (I)" "Intuition (N)" "Feeling (F)" "Judging (J)" = "IIFJ"
    ∧ (mbti_assessment initialPersonalityData "Introversion (I)" "Intuition (N)"
        "Feeling (F)" "Judging (J)").mbti
        = some { type := "IIFJ", ei := "I", sn := "I", tf := "F", jp := "J" }
    ∧ "IIFJ" ≠ "INFJ" := by
  exact ⟨by decide, by decide, by decide⟩

/-- Claim C2, evaluation at a failing input: submitting with Intuition (N)
chosen stores sn = I, which is outside the claimed pair S, N, and stores
the derived type EITJ whose second character is outside that pair. -/
theorem mbti_stored_sn_outside_alphabet :
    (mbti_assessment initialPersonalityData "Extraversion (E)" "Intuition (N)"
        "Thinking (T)" "Judging (J)").mbti
      = some { type := "EITJ", ei := "E", sn := "I", tf := "T", jp := "J" }
    ∧ "I" ∉ (["S", "N"] : List String) := by
  exact ⟨by decide, by decide⟩

/-- Claim C3 counterexample: the wing options for primary type 1 are
exactly [2] (9 is not offered) and for primary type 9 exactly [8] (1 is
not offered), refuting the claimed sets of two options 9,2 and 8,1. -/
theorem enneagram_wing_boundary_counterexample :
    (9 : Int) ∉ wing_options 1 ∧ (1 : Int) ∉ wing_options 9
    ∧ wing_options 1 = [2] ∧ wing_options 9 = [8] := by
  decide

/-- Claim C3 as amended: the wing option set for primaryType 1 is exactly
the one-element set 2 (never 0 and never 9), for primaryType 9 exactly 8
(never 10 and never 1), and for primaryType 5 exactly 4 and 6. -/
theorem enneagram_wing_boundary_amended :
    wing_options 1 = [2] ∧ (0 : Int) ∉ wing_options 1
    ∧ wing_options 9 = [8] ∧ (10 : Int) ∉ wing_options 9
    ∧ wing_options 5 = [4, 6] := by
  decide

/-- Claim C4: for every primary type offered by the selectbox, the wing
candidate set is exactly the pair of adjacent numbers filtered to the
range 1..9, with one element at the boundaries 1 and 9 and two elements
otherwise, and a saved wing drawn from the candidate set is always stored
inside it. -/
theorem enneagram_wing_candidate_set (pt : Int) (hpt : pt ∈ primaryTypeOptions) :
    (∀ w : Int, w ∈ wing_options pt ↔ ((w = pt - 1 ∨ w = pt + 1) ∧ 1 ≤ w ∧ w ≤ 9))
    ∧ ((pt = 1 ∨ pt = 9) → (wing_options pt).length = 1)
    ∧ (pt ≠ 1 → pt ≠ 9 → (wing_options pt).length = 2)
    ∧ (∀ (p : PersonalityData) (w : Int) (instinct : String) (e : EnneagramResult),
        w ∈ wing_options pt →
        (enneagram_assessment p pt w instinct).enneagram = some e →
        e.wing ∈ wing_options pt) := by
  have hcase : pt = 1 ∨ pt = 2 ∨ pt = 3 ∨ pt = 4 ∨ pt = 5 ∨ pt = 6 ∨ pt = 7 ∨ pt = 8 ∨ pt = 9 := by
    simpa [primaryTypeOptions] using hpt
  refine ⟨?_, ?_, ?_, ?_⟩
  · intro w
    simp only [wing_options, List.mem_filter, List.mem_cons, List.not_mem_nil, or_false,
      decide_eq_true_eq]
  · rcases hcase with rfl | rfl | rfl | rfl | rfl | rfl | rfl | rfl | rfl <;> decide
  · rcases hcase with rfl | rfl | rfl | rfl | rfl | rfl | rfl | rfl | rfl <;> decide
  · rintro p w instinct e hw he
    have h2 : some ({ primary_type := pt, wing := w, instinct := instinct } : EnneagramResult) = some e := he
    obtain rfl := (Option.some.inj h2).symm
    exact hw

/-- Witness for claim C4 at primary type 5: two wing candidates. -/
theorem enneagram_wing_candidate_set_witness : (wing_options 5).length = 2 :=
  (enneagram_wing_candidate_set 5 (by decide)).2.2.1 (by decide) (by decide)

/-- A sample profile holding one Big Five result. -/
def sampleBigFiveProfile : PersonalityData :=
  big_five_assessment initialPersonalityData 80 40 60 70 30

/-- A sample profile holding one Enneagram result. -/
def sampleEnneagramProfile : PersonalityData :=
  enneagram_assessment initialPersonalityData 5 4 "Social (so)"

/-- Claim C5: a Big Five submission with scores in 1..100 stores exactly
the record of the five scores under the Big Five key. -/
theorem big_five_store_exact (p : PersonalityData) (s1 s2 s3 s4 s5 : Int)
    (h1 : 1 ≤ s1 ∧ s1 ≤ 100) (h2 : 1 ≤ s2 ∧ s2 ≤ 100) (h3 : 1 ≤ s3 ∧ s3 ≤ 100)
    (h4 : 1 ≤ s4 ∧ s4 ≤ 100) (h5 : 1 ≤ s5 ∧ s5 ≤ 100) :
    getResult (big_five_assessment p s1 s2 s3 s4 s5) AssessmentKind.bigFive
      = some (AssessmentResult.bigFive
          { openness := s1, conscientiousness := s2, extraversion := s3,
            agreeableness := s4, neuroticism := s5 }) := rfl

/-- Witness for claim C5 at the scores 80, 40, 60, 70, 30. -/
theorem big_five_store_exact_witness :
    getResult (big_five_assessment initialPersonalityData 80 40 60 70 30) AssessmentKind.bigFive
      = some (AssessmentResult.bigFive
          { openness := 80, conscientiousness := 40, extraversion := 60,
            agreeableness := 70, neuroticism := 30 }) :=
  big_five_store_exact initialPersonalityData 80 40 60 70 30
    (by decide) (by decide) (by decide) (by decide) (by decide)

/-- Claim C6: storing a second result of the same kind replaces the first,
and the store holds at most one result per kind. -/
theorem profile_store_replaces (p : PersonalityData) (A B : AssessmentResult)
    (h : A.kind = B.kind) :
    getResult (setResult (setResult p A) B) B.kind = some B
    ∧ (∀ (k : AssessmentKind) (r r' : AssessmentResult),
        getResult p k = some r → getResult p k = some r' → r = r') := by
  constructor
  · cases A <;> cases B <;> rfl
  · intro k r r' hr hr'
    rw [hr] at hr'
    exact Option.some.inj hr'

/-- Witness for claim C6: overwriting one Big Five record with another. -/
theorem profile_store_replaces_witness :
    getResult (setResult (setResult initialPersonalityData
        (AssessmentResult.bigFive ⟨1, 2, 3, 4, 5⟩))
        (AssessmentResult.bigFive ⟨80, 40, 60, 70, 30⟩))
      (AssessmentResult.bigFive ⟨80, 40, 60, 70, 30⟩).kind
      = some (AssessmentResult.bigFive ⟨80, 40, 60, 70, 30⟩) :=
  (profile_store_replaces initialPersonalityData
    (AssessmentResult.bigFive ⟨1, 2, 3, 4, 5⟩)
    (AssessmentResult.bigFive ⟨80, 40, 60, 70, 30⟩) rfl).1

/-- Claim C7: with an empty store, the chat and analytics views render the
page header followed by a single precondition warning and nothing else;
with a non-empty store neither view warns, and each renders its section
4.4 projection: the Big Five bar series in fixed order, the MBTI type
string and the four binary pole indicators in axis order, the formatted
Enneagram string, and the templated chat response on a fired trigger. -/
theorem gated_views_render (p : PersonalityData) (q : String) (a : Bool) :
    (p.isEmpty = true →
        (chat_page p q a).2 =
          [RenderItem.header "Chat with Your Past Self",
           RenderItem.warning "Please complete at least one personality assessment before chatting."]
      ∧ (analytics_page p).2 =
          [RenderItem.header "Personality Analytics",
           RenderItem.warning "Please complete at least one personality assessment to view analytics."])
  ∧ (p.isEmpty = false →
        ((chat_page p q a).2.filter isWarning = []
      ∧ (analytics_page p).2.filter isWarning = []
      ∧ (∀ b, p.big_five = some b →
            RenderItem.barChart (specBigFiveSeries b) ∈ (analytics_page p).2)
      ∧ (∀ m, p.mbti = some m →
            RenderItem.write ("Your type: " ++ m.type) ∈ (analytics_page p).2
          ∧ (analytics_page p).2.filterMap progressValue = specMBTIIndicators m)
      ∧ (∀ e, p.enneagram = some e →
            RenderItem.write (specEnneagramText e) ∈ (analytics_page p).2)
      ∧ (q ≠ "" → a = true →
            RenderItem.info (chatResponse q) ∈ (chat_page p q a).2))) := by
  obtain ⟨bf, mb, en⟩ := p
  constructor
  · intro h
    simp only [PersonalityData.isEmpty, Bool.and_eq_true, Option.isNone_iff_eq_none] at h
    obtain ⟨⟨h1, h2⟩, h3⟩ := h
    subst h1; subst h2; subst h3
    exact ⟨rfl, rfl⟩
  · intro h
    rcases bf with _ | b <;> rcases mb with _ | m <;> rcases en with _ | e <;>
    first
    | exact absurd h (by decide)
    | · refine ⟨?_, ?_, ?_, ?_, ?_, ?_⟩
        · simp [chat_page, PersonalityData.isEmpty, List.filter_append,
            chatAskItems_filter_isWarning, isWarning]
        · simp [analytics_page, PersonalityData.isEmpty, List.filter_append,
            bigFiveSection, mbtiSection, enneagramSection, isWarning]
        · rintro b' hb'
          simp at hb'
          all_goals
            subst hb'
            simp [analytics_page, PersonalityData.isEmpty, bigFiveSection, specBigFiveSeries]
        · rintro m' hm'
          simp at hm'
          all_goals
            subst hm'
            refine ⟨?_, ?_⟩
            · simp [analytics_page, PersonalityData.isEmpty, mbtiSection]
            · simp [analytics_page, PersonalityData.isEmpty, List.filterMap_append,
                bigFiveSection, mbtiSection, enneagramSection, progressValue,
                specMBTIIndicators]
        · rintro e' he'
          simp at he'
          all_goals
            subst he'
            simp [analytics_page, PersonalityData.isEmpty, enneagramSection,
              specEnneagramText]
        · intro hq ha
          simp [chat_page, PersonalityData.isEmpty, chatAskItems_info_mem q a hq ha]

/-- Witness for claim C7: the empty store makes the chat view render
exactly the header and the warning. -/
theorem gated_views_render_witness :
    (chat_page initialPersonalityData "What should I do?" true).2 =
      [RenderItem.header "Chat with Your Past Self",
       RenderItem.warning "Please complete at least one personality assessment before chatting."] :=
  ((gated_views_render initialPersonalityData "What should I do?" true).1 rfl).1

/-- Claim C8: with a non-empty store and a non-empty query, the response
string is the fixed template with the query text embedded verbatim as a
substring, and the whole rendered chat view is identical across any two
non-empty stores. -/
theorem chat_response_verbatim_independent (p1 p2 : PersonalityData) (q : String) (a : Bool)
    (h1 : p1.isEmpty = false) (h2 : p2.isEmpty = false) (hq : q ≠ "") :
    (∃ pre post : String, chatResponse q = pre ++ q ++ post)
    ∧ (chat_page p1 q a).2 = (chat_page p2 q a).2 := by
  constructor
  · exact ⟨chatResponsePre, chatResponsePost, rfl⟩
  · simp [chat_page, h1, h2]

/-- Witness for claim C8: two differently populated non-empty stores give
the same rendered chat view. -/
theorem chat_response_verbatim_independent_witness :
    (chat_page sampleBigFiveProfile "What should I do?" true).2
      = (chat_page sampleEnneagramProfile "What should I do?" true).2 :=
  (chat_response_verbatim_independent sampleBigFiveProfile sampleEnneagramProfile
    "What should I do?" true (by decide) (by decide) (by decide)).2

/-- Claim C9: rendering the chat view or the analytics view returns the
store unchanged, for every store content. -/
theorem projection_views_no_mutation (p : PersonalityData) (q : String) (a : Bool) :
    (chat_page p q a).1 = p ∧ (analytics_page p).1 = p := by
  constructor
  · unfold chat_page
    split <;> rfl
  · unfold analytics_page
    split <;> rfl

/-- Claim C10: on the chat view with a non-empty store, an empty query
produces no response item even when the trigger fires, and a response item
can appear only when the query is non-empty and the trigger fired. -/
theorem empty_query_no_response (p : PersonalityData) (a : Bool) (h : p.isEmpty = false) :
    ((chat_page p "" a).2.filter isInfo = [])
    ∧ (∀ q : String, (chat_page p q a).2.filter isInfo ≠ [] → q ≠ "" ∧ a = true) := by
  constructor
  · have hnil : chatAskItems "" a = [] := chatAskItems_eq_nil "" a (by simp)
    simp [chat_page, h, hnil, List.filter_append, isInfo]
  · intro q hne
    by_cases hc : q ≠ "" ∧ a = true
    · exact hc
    · exfalso
      apply hne
      simp [chat_page, h, List.filter_append, chatAskItems_eq_nil q a hc, isInfo]

/-- Witness for claim C10: with a populated store and a fired trigger, the
empty query renders no response. -/
theorem empty_query_no_response_witness :
    (chat_page sampleBigFiveProfile "" true).2.filter isInfo = [] :=
  (empty_query_no_response sampleBigFiveProfile true (by decide)).1
